import Mathlib

/-!
Shallow embedding of `autosip.py`, a script that schedules and submits
impedance-spectroscopy (SIP) measurements to a lab instrument over HTTP.

Modelling conventions:
* Python dicts become ordered association lists `List (String × String)`;
  `d[k]` is `List.lookup`, and a failing lookup (Python `KeyError`) is an
  `Except.error`.
* Network effects are oracles: a GET/POST to a channel's endpoint is a
  function `String → Option (Nat × String)` giving, per channel, either
  `none` (a transport-level exception from `requests`) or `some (status,
  body)`.
* `requests.Response.ok` is `status < 400`; `Response.raise_for_status`
  raises exactly when `400 ≤ status < 600` (per the requests library).
* Times are integer microseconds since the epoch (the resolution of
  Python `datetime`/`arrow`).  `arrow.ceil('hour')` returns the last
  microsecond of the current hour (hh:59:59.999999), as documented by the
  arrow library.  The float round trip in `first_measure_time`
  (`timedelta / timedelta` then `float * timedelta`) is exact at this
  scale: the quantities involved are below 2^52 microseconds and the
  relative float error (≈1e-16) is far below half a microsecond, so the
  result of `(num_intervals - floor num_intervals) * interval` is exactly
  the remainder of the microsecond division.
* `time.sleep` in CPython raises `ValueError` for a negative argument;
  `pySleep` models this.
-/

/-- DEFAULTS from autosip.py: the default logical parameter set, all values
pre-rendered as strings (insertion order preserved, as in Python 3.7+). -/
def DEFAULTS : List (String × String) := [
  ("psip_mode", "1"),
  ("sequence_script", ""),
  ("seq_loop_count", "1"),
  ("stimulus_plus_p1", "0"),
  ("stimulus_minus_p2", "0"),
  ("sense_plus_p3", "0"),
  ("sense_minus_p4", "0"),
  ("start_freq", "1000.0"),
  ("stop_freq", "0.01"),
  ("n_steps", "51"),
  ("amplitude", "5.0"),
  ("settle_time", "1"),
  ("settle_cycles", "1"),
  ("integration_time", "5"),
  ("integration_cycles", "5"),
  ("resistor_ohm", "1000"),
  ("loop_count", "1"),
  ("master_slave_sel", "0"),
  ("ext_trigger_sel", "0"),
  ("filename", "sip_results"),
  ("comment", "comment"),
  ("submit", "1")]

/-- PARAM_NAMES_v1_0_1 from autosip.py: logical name → wire field name for
SIP software version 1.0.1. -/
def PARAM_NAMES_v1_0_1 : List (String × String) := [
  ("stimulus_channel", "n1"),
  ("response_channel", "n2"),
  ("start_freq", "v11"),
  ("stop_freq", "v12"),
  ("n_steps", "v13"),
  ("amplitude", "v14"),
  ("settle_time", "v21"),
  ("settle_cycles", "v22"),
  ("integration_time", "v23"),
  ("integration_cycles", "v24"),
  ("resistor_ohm", "n3"),
  ("loop_count", "loop"),
  ("master_slave_sel", "msSel"),
  ("ext_trigger_sel", "trigSel"),
  ("filename", "n4"),
  ("comment", "n5"),
  ("submit", "submit")]

/-- PARAM_NAMES_v1_3_1h1 from autosip.py: logical name → wire field name for
SIP software version 1.3.1h-1. -/
def PARAM_NAMES_v1_3_1h1 : List (String × String) := [
  ("psip_mode", "funcSelectBox"),
  ("sequence_script", "sequence_script"),
  ("seq_loop_count", "seq_loop_count"),
  ("stimulus_plus_p1", "fx_sel1"),
  ("stimulus_minus_p2", "fx_sel2"),
  ("sense_plus_p3", "fx_sel3"),
  ("sense_minus_p4", "fx_sel4"),
  ("response_channel", "resp_chan_list"),
  ("start_freq", "start_freq"),
  ("stop_freq", "stop_freq"),
  ("n_steps", "num_steps"),
  ("amplitude", "amplitude"),
  ("settle_time", "settle_time"),
  ("settle_cycles", "settle_cycles"),
  ("integration_time", "int_time"),
  ("integration_cycles", "int_cycles"),
  ("resistor_ohm", "current_resistor"),
  ("loop_count", "loop_count"),
  ("master_slave_sel", "ms_sel"),
  ("ext_trigger_sel", "trig_sel"),
  ("filename", "log_prefix"),
  ("comment", "user_comment"),
  ("submit", "submit")]

/-- PORTS from autosip.py: the static channel → TCP port table. -/
def PORTS : List (String × Nat) :=
  [("1", 9344), ("2", 9345), ("3", 9346), ("4", 9347)]

/-- SUBMIT_BUTTON marker string from autosip.py. -/
def SUBMIT_BUTTON : String :=
  "<button name=\"submit\" type=\"submit\" value=\"1\"><b>Submit</b>"

/-- CANCEL_BUTTON marker string from autosip.py. -/
def CANCEL_BUTTON : String :=
  "<button name=\"submit\" type=\"submit\" value=\"0\"><b>Cancel</b>"

/-- The device error marker tested in check_response. -/
def WEB_UI_ERROR : String := "ERROR : Web UI Error"

/-- Helper: does `needle` occur as a contiguous run inside `hay` (the
semantics of Python's `needle in hay` on strings)? -/
def listInfix (needle : List Char) : List Char → Bool
  | [] => needle.isEmpty
  | c :: rest => needle.isPrefixOf (c :: rest) || listInfix needle rest

/-- Python's substring test `needle in hay`. -/
def strContains (hay needle : String) : Bool :=
  listInfix needle.data hay.data

/-- get_param_names from autosip.py: version string → field mapping, or a
ValueError for unsupported versions. -/
def get_param_names (version : String) :
    Except String (List (String × String)) :=
  if version == "1.0.1" then
    Except.ok PARAM_NAMES_v1_0_1
  else if version == "1.3.1h-1" then
    Except.ok PARAM_NAMES_v1_3_1h1
  else
    Except.error ("SIP software version " ++ version ++ " is not supported.")

/-- Microseconds in one hour. -/
def MICROS_PER_HOUR : Nat := 3600000000

/-- arrow's `.ceil('hour')`: the last microsecond of the hour containing
`t` (hh:59:59.999999), with `t` in microseconds since the epoch. -/
def ceilHour (t : Nat) : Nat :=
  t / MICROS_PER_HOUR * MICROS_PER_HOUR + MICROS_PER_HOUR - 1

/-- The genuine next full-hour boundary after `t` (the instant the spec's
"epoch-aligned hour grid" refers to). -/
def nextFullHour (t : Nat) : Nat :=
  t / MICROS_PER_HOUR * MICROS_PER_HOUR + MICROS_PER_HOUR

/-- first_measure_time from autosip.py, with `now` made explicit.
`diff_to_full_hour = now.ceil('hour') - now`; `num_intervals` is the real
quotient `diff/interval`; the returned time is
`now + (num_intervals - floor num_intervals) * interval`, i.e. exactly
`now + diff % interval` in microseconds (float exactness argued in the
file header). -/
def first_measure_time (now interval : Nat) : Nat :=
  now + (ceilHour now - now) % interval

/-- CPython's `time.sleep`: raises ValueError on a negative duration
(duration here in integer microseconds). -/
def pySleep (micros : Int) : Except String Unit :=
  if micros < 0 then
    Except.error "ValueError: sleep length must be non-negative"
  else
    Except.ok ()

/-- wait_until from autosip.py, with `now` made explicit (times in
microseconds since the epoch): sleeps for `target_time - now`. -/
def wait_until (now target_time : Int) : Except String Unit :=
  pySleep (target_time - now)

/-- Python dict assignment `m[k] = v`: replace in place if the key exists,
append otherwise. -/
def setKey (m : List (String × String)) (k v : String) :
    List (String × String) :=
  if m.any (fun p => p.1 == k) then
    m.map (fun p => if p.1 == k then (k, v) else p)
  else
    m ++ [(k, v)]

/-- The dict comprehension in prepare_data:
`{instrument_name: vals[name] for name, instrument_name in param_names.items()}`;
a missing logical name raises KeyError. -/
def projectParams (vals : List (String × String)) :
    List (String × String) → Except String (List (String × String))
  | [] => Except.ok []
  | (name, instrument_name) :: rest =>
    match vals.lookup name with
    | none => Except.error ("KeyError: " ++ name)
    | some v =>
      match projectParams vals rest with
      | Except.error e => Except.error e
      | Except.ok tail => Except.ok ((instrument_name, v) :: tail)

/-- prepare_data from autosip.py, with the wall-clock timestamp string made
explicit.  Copies `params`, overwrites filename with
`{timestamp}-ch{stimulus_channel}-{basename}`, sets stimulus_channel and
response_channel (comma-joined), then projects through the field mapping. -/
def prepare_data (basename timestamp stimulus_channel : String)
    (response_channels : List String)
    (param_names params : List (String × String)) :
    Except String (List (String × String)) :=
  let vals1 := setKey params "filename"
    (timestamp ++ "-ch" ++ stimulus_channel ++ "-" ++ basename)
  let vals2 := setKey vals1 "stimulus_channel" stimulus_channel
  let vals3 := setKey vals2 "response_channel"
    (String.intercalate "," response_channels)
  projectParams vals3 param_names

/-- check_device_ready from autosip.py.  `net c` is the outcome of
`requests.get` on channel `c`'s endpoint (`none` = transport exception).
The `PORTS[channel]` lookup happens before the try block, so an unknown
channel is an uncaught KeyError (`Except.error`); a transport exception is
caught and yields `False`; a non-ok status or a missing submit button also
yield `False`; otherwise the loop continues. -/
def check_device_ready (channels : List String)
    (net : String → Option (Nat × String)) : Except String Bool :=
  match channels with
  | [] => Except.ok true
  | c :: rest =>
    match PORTS.lookup c with
    | none => Except.error ("KeyError: " ++ c)
    | some _port =>
      match net c with
      | none => Except.ok false
      | some (status, text) =>
        if status < 400 then
          if strContains text SUBMIT_BUTTON then
            check_device_ready rest net
          else
            Except.ok false
        else
          Except.ok false

/-- The exceptions check_response can raise. -/
inductive RespError
  | httpError (status : Nat)
  | rejectedByDevice
  | submissionFailed
  | badResponse

/-- check_response from autosip.py, as a function of the response's HTTP
status and body text.  `raise_for_status` raises exactly for statuses in
[400, 600); then the body markers are tested in priority order: cancel
button → normal return; Web-UI error → RuntimeError (rejected);
submit button → RuntimeError (submission failed); otherwise a generic
RuntimeError. -/
def check_response (status : Nat) (text : String) : Except RespError Unit :=
  if 400 ≤ status ∧ status < 600 then
    Except.error (RespError.httpError status)
  else if strContains text CANCEL_BUTTON then
    Except.ok ()
  else if strContains text WEB_UI_ERROR then
    Except.error RespError.rejectedByDevice
  else if strContains text SUBMIT_BUTTON then
    Except.error RespError.submissionFailed
  else
    Except.error RespError.badResponse

/-- Observable events of one measurement cycle: the cooldown sleep (in
seconds), the skip log line, a POST being issued, a success log line and a
per-channel failure log line. -/
inductive Event
  | cooldown (seconds : Nat)
  | skip
  | post (channel : String)
  | success (channel : String)
  | chanFail (channel : String)

/-- The body of the try block in measure's per-channel loop: build the
payload, POST it (`submit ch`; `none` = transport exception), classify the
response.  Any exception is caught at the iteration boundary and logged
(`chanFail`). -/
def submitChannel (basename timestamp : String)
    (param_names data : List (String × String))
    (submit : String → Option (Nat × String))
    (ch : String) (response_channels : List String) : List Event :=
  match prepare_data basename timestamp ch response_channels param_names data with
  | Except.error _ => [Event.chanFail ch]
  | Except.ok _payload =>
    match submit ch with
    | none => [Event.post ch, Event.chanFail ch]
    | some (status, text) =>
      match check_response status text with
      | Except.ok _ => [Event.post ch, Event.success ch]
      | Except.error _ => [Event.post ch, Event.chanFail ch]

/-- The per-channel loop of measure.  The `PORTS[stimulus_channel]` lookup
(for the URL) sits before the try block, so an unknown stimulus channel is
an uncaught KeyError aborting the whole loop. -/
def measureLoop (basename timestamp : String)
    (param_names data : List (String × String))
    (submit : String → Option (Nat × String)) :
    List (String × List String) → Except String (List Event)
  | [] => Except.ok []
  | (ch, response_channels) :: rest =>
    match PORTS.lookup ch with
    | none => Except.error ("KeyError: " ++ ch)
    | some _port =>
      match measureLoop basename timestamp param_names data submit rest with
      | Except.error e => Except.error e
      | Except.ok evs =>
        Except.ok
          (submitChannel basename timestamp param_names data submit
            ch response_channels ++ evs)

/-- measure from autosip.py.  `channels` is args.channels (iterating the
dict in check_device_ready yields its keys, i.e. the stimulus channels);
`net1`/`net2` are the GET oracles of the first readiness check and of the
re-check after the fixed 15-minute (900 s) cooldown; `submit` is the POST
oracle.  If both checks say not ready, one skip line is logged and the
cycle returns with no submission. -/
def measureCycle (basename timestamp : String)
    (param_names data : List (String × String))
    (channels : List (String × List String))
    (net1 net2 submit : String → Option (Nat × String)) :
    Except String (List Event) :=
  match check_device_ready (channels.map Prod.fst) net1 with
  | Except.error e => Except.error e
  | Except.ok true =>
    measureLoop basename timestamp param_names data submit channels
  | Except.ok false =>
    match check_device_ready (channels.map Prod.fst) net2 with
    | Except.error e => Except.error e
    | Except.ok true =>
      match measureLoop basename timestamp param_names data submit channels with
      | Except.error e => Except.error e
      | Except.ok evs => Except.ok (Event.cooldown 900 :: evs)
    | Except.ok false => Except.ok [Event.cooldown 900, Event.skip]

/-- Per-channel readiness as the spec's three-way conjunction: transport
success, ok status, submit-button marker present. -/
def channelReady (net : String → Option (Nat × String)) (c : String) : Bool :=
  match net c with
  | none => false
  | some (status, text) => decide (status < 400) && strContains text SUBMIT_BUTTON

/-- The stimulus channel an event concerns, if any. -/
def eventChannel : Event → Option String
  | Event.post c => some c
  | Event.success c => some c
  | Event.chanFail c => some c
  | Event.cooldown _ => none
  | Event.skip => none

/-- Is the event a POST submission? -/
def isPostEvent : Event → Bool
  | Event.post _ => true
  | _ => false

/-- Is the event the skip log line? -/
def isSkipEvent : Event → Bool
  | Event.skip => true
  | _ => false

/-- A version-supported predicate used by several statements below. -/
def supportedVersions : List String := ["1.0.1", "1.3.1h-1"]

/-- The seven logical parameters that exist in DEFAULTS but have no wire
field under SIP software version 1.0.1. -/
def extendedOnlyParams : List String :=
  ["psip_mode", "sequence_script", "seq_loop_count", "stimulus_plus_p1",
   "stimulus_minus_p2", "sense_plus_p3", "sense_minus_p4"]

/-- C1 (counterexample): the claim fails for the supported version
"1.0.1": get_param_names succeeds on it, yet the logical parameter
psip_mode is present in DEFAULTS and has no entry in the returned
mapping, so the mapping's key set is not a superset of DEFAULTS' keys. -/
theorem C1_counterexample :
    get_param_names "1.0.1" = Except.ok PARAM_NAMES_v1_0_1 ∧
    ("psip_mode", "1") ∈ DEFAULTS ∧
    PARAM_NAMES_v1_0_1.lookup "psip_mode" = none :=
  ⟨rfl, by decide, rfl⟩

/-- C1 (amended): for version "1.3.1h-1" the mapping's key set covers every
DEFAULTS key; for version "1.0.1" it covers every DEFAULTS key except the
seven extended parameters; every other version string raises ValueError. -/
theorem C1_amended :
    (∀ k ∈ DEFAULTS.map Prod.fst, (PARAM_NAMES_v1_3_1h1.lookup k).isSome = true) ∧
    (∀ k ∈ DEFAULTS.map Prod.fst, k ∉ extendedOnlyParams →
      (PARAM_NAMES_v1_0_1.lookup k).isSome = true) ∧
    get_param_names "1.0.1" = Except.ok PARAM_NAMES_v1_0_1 ∧
    get_param_names "1.3.1h-1" = Except.ok PARAM_NAMES_v1_3_1h1 ∧
    ∀ v, v ∉ supportedVersions →
      get_param_names v =
        Except.error ("SIP software version " ++ v ++ " is not supported.") := by
  refine ⟨by decide, by decide, rfl, rfl, ?_⟩
  intro v hv
  have h1 : v ≠ "1.0.1" := fun h => hv (by simp [supportedVersions, h])
  have h2 : v ≠ "1.3.1h-1" := fun h => hv (by simp [supportedVersions, h])
  simp [get_param_names, h1, h2]

/-- C1 (witness): instantiating the amended theorem at the unsupported
version string "9.9". -/
theorem C1_amended_witness :
    get_param_names "9.9" =
      Except.error ("SIP software version " ++ "9.9" ++ " is not supported.") :=
  C1_amended.2.2.2.2 "9.9" (by decide)

/-- C2 (counterexample): the claim says every non-2xx status propagates a
failure regardless of body, but raise_for_status only raises for statuses
in [400, 600): a 301 response whose body contains the cancel marker is
classified as Success (normal return). -/
theorem C2_counterexample :
    ¬ (200 ≤ 301 ∧ 301 < 300) ∧
    check_response 301 CANCEL_BUTTON = Except.ok () :=
  ⟨by decide, rfl⟩

/-- C2 (amended): statuses in [400, 600) propagate an HTTP error
independently of the body; for any other status the body is classified in
priority order: cancel marker ⇒ Success, else error marker ⇒
RejectedByDevice, else submit marker ⇒ SubmissionFailed, else a generic
SubmissionFailed — never a silent success. -/
theorem C2_amended (status : Nat) (text : String) :
    (400 ≤ status → status < 600 →
      check_response status text = Except.error (RespError.httpError status)) ∧
    (¬ (400 ≤ status ∧ status < 600) →
      (strContains text CANCEL_BUTTON = true →
        check_response status text = Except.ok ()) ∧
      (strContains text CANCEL_BUTTON = false →
        strContains text WEB_UI_ERROR = true →
        check_response status text = Except.error RespError.rejectedByDevice) ∧
      (strContains text CANCEL_BUTTON = false →
        strContains text WEB_UI_ERROR = false →
        strContains text SUBMIT_BUTTON = true →
        check_response status text = Except.error RespError.submissionFailed) ∧
      (strContains text CANCEL_BUTTON = false →
        strContains text WEB_UI_ERROR = false →
        strContains text SUBMIT_BUTTON = false →
        check_response status text = Except.error RespError.badResponse)) := by
  unfold check_response
  constructor
  · intro h1 h2
    rw [if_pos ⟨h1, h2⟩]
  · intro h
    rw [if_neg h]
    exact ⟨fun hc => by simp [hc],
           fun hc he => by simp [hc, he],
           fun hc he hs => by simp [hc, he, hs],
           fun hc he hs => by simp [hc, he, hs]⟩

/-- C2 (witness): instantiating the amended theorem at a 200 response whose
body is the cancel marker itself. -/
theorem C2_amended_witness :
    check_response 200 CANCEL_BUTTON = Except.ok () :=
  ((C2_amended 200 CANCEL_BUTTON).2 (by decide)).1 (by decide)

/-- C3 (code bug): the spec requires wait_until to tolerate a target in the
past (sleep 0 instead of erroring), but the code passes the raw negative
difference to time.sleep, which raises ValueError in CPython.  At
now = 10 s and target_time = 9 s (microsecond units) the call fails; a
zero difference is tolerated. -/
theorem C3_negative_diff_raises :
    wait_until 10000000 9000000 =
      Except.error "ValueError: sleep length must be non-negative" ∧
    wait_until 10000000 10000000 = Except.ok () :=
  ⟨rfl, rfl⟩

/-- C4 (counterexample): at now = 0 (a full hour) with a 30-minute interval
(1800000000 µs), first_measure_time returns 1799999999 µs, one microsecond
before the half-hour mark: the distance to the next full hour is
1800000001 µs, which is not a whole number of intervals, so the returned
time is not on the aligned grid. -/
theorem C4_counterexample :
    first_measure_time 0 1800000000 = 1799999999 ∧
    ¬ ∃ k : Nat, nextFullHour 0 - first_measure_time 0 1800000000 =
      k * 1800000000 := by
  refine ⟨rfl, ?_⟩
  rintro ⟨k, hk⟩
  rw [show nextFullHour 0 - first_measure_time 0 1800000000 = 1800000001
    from rfl] at hk
  omega

/-- C4 (amended): for every now and positive interval, first_measure_time
returns a time t with now ≤ t < next full hour, and t lies exactly one
microsecond before an instant of the aligned grid: the distance from t to
the next full hour is congruent to 1 µs modulo the interval (a consequence
of arrow's ceil('hour') ending at hh:59:59.999999). -/
theorem C4_amended (now interval : Nat) (h : 0 < interval) :
    now ≤ first_measure_time now interval ∧
    first_measure_time now interval < nextFullHour now ∧
    (nextFullHour now - first_measure_time now interval) % interval =
      1 % interval := by
  have hle : now ≤ ceilHour now := by
    unfold ceilHour MICROS_PER_HOUR
    omega
  have hnext : ceilHour now + 1 = nextFullHour now := by
    unfold ceilHour nextFullHour MICROS_PER_HOUR
    omega
  have hmod : (ceilHour now - now) % interval ≤ ceilHour now - now :=
    Nat.mod_le _ _
  refine ⟨?_, ?_, ?_⟩
  · unfold first_measure_time
    omega
  · unfold first_measure_time
    omega
  · have hdm := Nat.div_add_mod (ceilHour now - now) interval
    have h3 : nextFullHour now - first_measure_time now interval =
        interval * ((ceilHour now - now) / interval) + 1 := by
      unfold first_measure_time
      generalize interval * ((ceilHour now - now) / interval) = q at hdm ⊢
      omega
    rw [h3, Nat.mul_add_mod]

/-- C4 (witness): the amended theorem instantiated at now = 0 with a
30-minute interval. -/
theorem C4_amended_witness :
    0 ≤ first_measure_time 0 1800000000 ∧
    first_measure_time 0 1800000000 < nextFullHour 0 ∧
    (nextFullHour 0 - first_measure_time 0 1800000000) % 1800000000 =
      1 % 1800000000 :=
  C4_amended 0 1800000000 (by decide)

/-- Helper: whatever the submission oracle does, the per-channel try block
always produces at least one logged event about its own channel. -/
theorem submitChannel_hits_channel (basename timestamp : String)
    (param_names data : List (String × String))
    (submit : String → Option (Nat × String)) (ch : String)
    (rcs : List String) :
    ∃ e ∈ submitChannel basename timestamp param_names data submit ch rcs,
      eventChannel e = some ch := by
  unfold submitChannel
  cases hp : prepare_data basename timestamp ch rcs param_names data with
  | error e => exact ⟨Event.chanFail ch, by simp, rfl⟩
  | ok payload =>
    cases hs : submit ch with
    | none => exact ⟨Event.post ch, by simp, rfl⟩
    | some st =>
      obtain ⟨status, text⟩ := st
      cases hc : check_response status text with
      | ok u => exact ⟨Event.post ch, by simp [hc], rfl⟩
      | error e => exact ⟨Event.post ch, by simp [hc], rfl⟩

/-- C5: per-channel failure isolation.  If every stimulus channel of the
ChannelMap is a known PORTS channel, then the submission loop finishes
normally for every submission oracle — in particular for oracles that
throw (transport exception), produce rejected or failed classifications,
or make payload construction fail — and every stimulus channel of the map
gets its own attempt event: a failure on one channel never prevents a
later channel from being attempted. -/
theorem C5_per_channel_isolation (basename timestamp : String)
    (param_names data : List (String × String))
    (submit : String → Option (Nat × String))
    (channels : List (String × List String))
    (h : ∀ c ∈ channels.map Prod.fst, (PORTS.lookup c).isSome = true) :
    ∃ evs, measureLoop basename timestamp param_names data submit channels =
        Except.ok evs ∧
      ∀ c ∈ channels.map Prod.fst, ∃ e ∈ evs, eventChannel e = some c := by
  induction channels with
  | nil => exact ⟨[], rfl, by simp⟩
  | cons hd tl ih =>
    obtain ⟨ch, rcs⟩ := hd
    have hch : (PORTS.lookup ch).isSome = true := h ch (by simp)
    obtain ⟨p, hp⟩ := Option.isSome_iff_exists.mp hch
    obtain ⟨evs, hevs, hall⟩ := ih (fun c hc => h c (by simp [hc]))
    refine ⟨submitChannel basename timestamp param_names data submit ch rcs
      ++ evs, ?_, ?_⟩
    · simp only [measureLoop, hp, hevs]
    · intro c hc
      simp only [List.map_cons, List.mem_cons] at hc
      rcases hc with hceq | hcin
      · subst hceq
        obtain ⟨e, he, hec⟩ :=
          submitChannel_hits_channel basename timestamp param_names data
            submit c rcs
        exact ⟨e, List.mem_append_left _ he, hec⟩
      · obtain ⟨e, he, hec⟩ := hall c hcin
        exact ⟨e, List.mem_append_right _ he, hec⟩

/-- A submission oracle that always fails at the transport level. -/
def noNet : String → Option (Nat × String) := fun _ => none

/-- A submission oracle that fails channel "2" at the transport level and
answers channel "3" with a successful (cancel-marker) page. -/
def failTwoNet : String → Option (Nat × String) :=
  fun c => if c == "2" then none else some (200, CANCEL_BUTTON)

/-- C5 (witness): the isolation theorem instantiated on the ChannelMap
{"2": ["3"], "3": ["4"]} with an oracle that throws on channel "2":
channel "3" is still attempted. -/
theorem C5_per_channel_isolation_witness :
    ∃ evs, measureLoop "base" "ts" PARAM_NAMES_v1_3_1h1 DEFAULTS failTwoNet
        [("2", ["3"]), ("3", ["4"])] = Except.ok evs ∧
      ∀ c ∈ [("2", ["3"]), ("3", ["4"])].map Prod.fst,
        ∃ e ∈ evs, eventChannel e = some c :=
  C5_per_channel_isolation "base" "ts" PARAM_NAMES_v1_3_1h1 DEFAULTS failTwoNet
    [("2", ["3"]), ("3", ["4"])] (by decide)

/-- C6: if the readiness check fails on the initial attempt and on the
single re-check after the fixed 15-minute (900 s) cooldown, the cycle
returns normally with zero POST submissions and exactly one skip event. -/
theorem C6_skip_cycle (basename timestamp : String)
    (param_names data : List (String × String))
    (channels : List (String × List String))
    (net1 net2 submit : String → Option (Nat × String))
    (h1 : check_device_ready (channels.map Prod.fst) net1 = Except.ok false)
    (h2 : check_device_ready (channels.map Prod.fst) net2 = Except.ok false) :
    ∃ evs,
      measureCycle basename timestamp param_names data channels net1 net2
        submit = Except.ok evs ∧
      evs = [Event.cooldown 900, Event.skip] ∧
      evs.countP isPostEvent = 0 ∧ evs.countP isSkipEvent = 1 := by
  refine ⟨[Event.cooldown 900, Event.skip], ?_, rfl, by decide, by decide⟩
  unfold measureCycle
  rw [h1, h2]

/-- C6 (witness): the skip theorem instantiated on ChannelMap {"1": ["2"]}
with unreachable-device oracles for both readiness checks. -/
theorem C6_skip_cycle_witness :
    ∃ evs,
      measureCycle "base" "ts" PARAM_NAMES_v1_3_1h1 DEFAULTS [("1", ["2"])]
        noNet noNet noNet = Except.ok evs ∧
      evs = [Event.cooldown 900, Event.skip] ∧
      evs.countP isPostEvent = 0 ∧ evs.countP isSkipEvent = 1 :=
  C6_skip_cycle "base" "ts" PARAM_NAMES_v1_3_1h1 DEFAULTS [("1", ["2"])]
    noNet noNet noNet rfl rfl

/-- C7: over channels that are all known PORTS channels, the readiness
check returns normally (transport exceptions are caught, never propagated)
with result the conjunction of per-channel readiness: each channel must
answer at the transport level, with an ok status, and with a body
containing the submit-button marker. -/
theorem C7_ready_iff_all (channels : List String)
    (net : String → Option (Nat × String))
    (h : ∀ c ∈ channels, (PORTS.lookup c).isSome = true) :
    check_device_ready channels net =
      Except.ok (channels.all (channelReady net)) := by
  induction channels with
  | nil => rfl
  | cons c rest ih =>
    have hc : (PORTS.lookup c).isSome = true := h c (by simp)
    obtain ⟨p, hp⟩ := Option.isSome_iff_exists.mp hc
    have ih' := ih (fun x hx => h x (by simp [hx]))
    unfold check_device_ready
    rw [hp]
    cases hn : net c with
    | none => simp [List.all_cons, channelReady, hn]
    | some st =>
      obtain ⟨status, text⟩ := st
      by_cases hst : status < 400
      · by_cases hsb : strContains text SUBMIT_BUTTON = true
        · simp [List.all_cons, channelReady, hn, hst, hsb, ih']
        · simp only [Bool.not_eq_true] at hsb
          simp [List.all_cons, channelReady, hn, hst, hsb]
      · simp [List.all_cons, channelReady, hn, hst]

/-- A readiness oracle where channel "1" shows the submit button and every
other channel answers with a page not containing it. -/
def unreadyTwoNet : String → Option (Nat × String) :=
  fun c => if c == "1" then some (200, SUBMIT_BUTTON) else some (200, "busy")

/-- C7 (witness): the readiness theorem instantiated on channels
["1", "2"] where "1" is ready and "2" is not: the whole check is false. -/
theorem C7_ready_iff_all_witness :
    check_device_ready ["1", "2"] unreadyTwoNet =
      Except.ok (["1", "2"].all (channelReady unreadyTwoNet)) ∧
    ["1", "2"].all (channelReady unreadyTwoNet) = false :=
  ⟨C7_ready_iff_all ["1", "2"] unreadyTwoNet (by decide), by decide⟩

/-- Helper: the dict comprehension of prepare_data emits exactly the wire
field names of the mapping, in order, whenever it succeeds. -/
theorem projectParams_keys (vals : List (String × String)) :
    ∀ pn payload, projectParams vals pn = Except.ok payload →
      payload.map Prod.fst = pn.map Prod.snd := by
  intro pn
  induction pn with
  | nil =>
    intro payload h
    simp only [projectParams] at h
    cases h
    rfl
  | cons head tail ih =>
    obtain ⟨name, wire⟩ := head
    intro payload h
    simp only [projectParams] at h
    cases hv : vals.lookup name with
    | none => rw [hv] at h; cases h
    | some v =>
      rw [hv] at h
      cases hrec : projectParams vals tail with
      | error e => rw [hrec] at h; cases h
      | ok tail2 =>
        rw [hrec] at h
        cases h
        simp [ih tail2 hrec]

/-- C8: whenever prepare_data succeeds, the wire payload's key list is
exactly the wire field names of the version's mapping, so any logical
parameter without an entry in the mapping is silently dropped; under
version "1.3.1h-1" the mapping has no stimulus_channel entry, and under
version "1.0.1" the seven extended DEFAULTS parameters have no entry. -/
theorem C8_payload_keys :
    (∀ basename timestamp ch rcs param_names data payload,
      prepare_data basename timestamp ch rcs param_names data =
        Except.ok payload →
      payload.map Prod.fst = param_names.map Prod.snd) ∧
    PARAM_NAMES_v1_3_1h1.lookup "stimulus_channel" = none ∧
    (∀ k ∈ extendedOnlyParams, PARAM_NAMES_v1_0_1.lookup k = none) := by
  refine ⟨?_, rfl, by decide⟩
  intro basename timestamp ch rcs param_names data payload h
  exact projectParams_keys _ _ _ h

/-- The payload produced for version 1.3.1h-1 from the default parameters
on stimulus channel "1" with response channels ["2", "3"]. -/
def samplePayload : List (String × String) :=
  match prepare_data "base" "20260101T0000Z" "1" ["2", "3"]
      PARAM_NAMES_v1_3_1h1 DEFAULTS with
  | Except.ok p => p
  | Except.error _ => []

/-- C8 (witness): the payload-key theorem instantiated on the default
parameter set under version 1.3.1h-1. -/
theorem C8_payload_keys_witness :
    samplePayload.map Prod.fst = PARAM_NAMES_v1_3_1h1.map Prod.snd :=
  C8_payload_keys.1 "base" "20260101T0000Z" "1" ["2", "3"]
    PARAM_NAMES_v1_3_1h1 DEFAULTS samplePayload rfl

/-- C9: the channel → port lookup is partial: exactly the channels "1"
through "4" are mapped.  For any other channel identifier the PORTS lookup
sits outside every exception scope, so check_device_ready raises an
uncaught KeyError instead of returning a boolean, the per-channel loop of
measure aborts the whole cycle, and so does the full cycle function. -/
theorem C9_unknown_channel_aborts (c : String) (cs : List String)
    (rcs : List String) (rest : List (String × List String))
    (basename timestamp : String) (param_names data : List (String × String))
    (net1 net2 submit : String → Option (Nat × String))
    (h : PORTS.lookup c = none) :
    (∀ s, (PORTS.lookup s).isSome = true ↔ s ∈ ["1", "2", "3", "4"]) ∧
    check_device_ready (c :: cs) net1 = Except.error ("KeyError: " ++ c) ∧
    measureLoop basename timestamp param_names data submit
      ((c, rcs) :: rest) = Except.error ("KeyError: " ++ c) ∧
    measureCycle basename timestamp param_names data ((c, rcs) :: rest)
      net1 net2 submit = Except.error ("KeyError: " ++ c) := by
  have hcdr : check_device_ready (c :: rest.map Prod.fst) net1 =
      Except.error ("KeyError: " ++ c) := by
    unfold check_device_ready
    rw [h]
  refine ⟨?_, ?_, ?_, ?_⟩
  · intro s
    by_cases h1 : s = "1"
    · subst h1; decide
    · by_cases h2 : s = "2"
      · subst h2; decide
      · by_cases h3 : s = "3"
        · subst h3; decide
        · by_cases h4 : s = "4"
          · subst h4; decide
          · have e1 : (s == "1") = false := by simp [h1]
            have e2 : (s == "2") = false := by simp [h2]
            have e3 : (s == "3") = false := by simp [h3]
            have e4 : (s == "4") = false := by simp [h4]
            simp [PORTS, List.lookup, e1, e2, e3, e4, h1, h2, h3, h4]
  · unfold check_device_ready
    rw [h]
  · unfold measureLoop
    rw [h]
  · unfold measureCycle
    rw [show ((c, rcs) :: rest).map Prod.fst = c :: rest.map Prod.fst
      from rfl, hcdr]

/-- C9 (witness): the partiality theorem instantiated at the unknown
channel "5". -/
theorem C9_unknown_channel_aborts_witness :
    (∀ s, (PORTS.lookup s).isSome = true ↔ s ∈ ["1", "2", "3", "4"]) ∧
    check_device_ready ["5"] noNet = Except.error ("KeyError: " ++ "5") ∧
    measureLoop "base" "ts" PARAM_NAMES_v1_0_1 DEFAULTS noNet
      [("5", ["1"])] = Except.error ("KeyError: " ++ "5") ∧
    measureCycle "base" "ts" PARAM_NAMES_v1_0_1 DEFAULTS [("5", ["1"])]
      noNet noNet noNet = Except.error ("KeyError: " ++ "5") :=
  C9_unknown_channel_aborts "5" [] ["1"] [] "base" "ts" PARAM_NAMES_v1_0_1
    DEFAULTS noNet noNet noNet rfl

/-- C10: for every stimulus channel and ordered list of response channels,
the payload carries the version's response-channel wire field (n2 for
1.0.1, resp_chan_list for 1.3.1h-1) whose value is the comma-joined
response channel list, in order with no spaces; for channels ["2", "3"]
the joined value is the literal string "2,3". -/
theorem C10_response_channel_join (basename timestamp ch : String)
    (rcs : List String) :
    (∃ p, prepare_data basename timestamp ch rcs PARAM_NAMES_v1_3_1h1
        DEFAULTS = Except.ok p ∧
      p.lookup "resp_chan_list" = some (String.intercalate "," rcs)) ∧
    (∃ p, prepare_data basename timestamp ch rcs PARAM_NAMES_v1_0_1
        DEFAULTS = Except.ok p ∧
      p.lookup "n2" = some (String.intercalate "," rcs)) ∧
    String.intercalate "," ["2", "3"] = "2,3" :=
  ⟨⟨_, rfl, rfl⟩, ⟨_, rfl, rfl⟩, rfl⟩
